import Mathlib

/-
  Verification of the Proximity Alarm & Fall-Detection Controller
  (firmware/projects/examen/main/examen.c).

  The embedding models the shared globals of the firmware as a record
  `State`, and each FreeRTOS task body as a pure step function that maps
  the state (plus the values produced by the external drivers during
  that iteration) to the next state.  Distances are C `float` values
  compared only against the integer thresholds 300 and 500; they are
  modelled as rationals.  The raw ADC readings are `uint16_t`; their
  three-way sum is computed in C after promotion to `int`, so it cannot
  overflow and is modelled as a sum of naturals.
-/

namespace Examen

/-- `#define CONFIG_PERIOD_500 500` — sensor refresh period (ms). -/
def CONFIG_PERIOD_500 : Nat := 500

/-- `#define CONFIG_PERIOD_1000 10` — note: the macro is *named* 1000 but
is *defined* as 10 in the source. -/
def CONFIG_PERIOD_1000 : Nat := 10

/-- `#define REFRESCO_SEND_DATA 500` — timer period (ms). -/
def REFRESCO_SEND_DATA : Nat := 500

/-- The shared mutable globals of examen.c together with the observable
outputs driven by the tasks (LEDs, GPIO_0, buzzer, UART messages). -/
structure State where
  /-- `bool activar = true;` — the system-enable flag. -/
  activar : Bool
  /-- `float distancia = 0.00;` — last measured distance in cm. -/
  distancia : ℚ
  /-- `uint16_t value1 = 0;` — last raw ADC reading, channel GPIO_20. -/
  value1 : Nat
  /-- `uint16_t value2 = 0;` — last raw ADC reading, channel GPIO_21. -/
  value2 : Nat
  /-- `uint16_t value3 = 0;` — last raw ADC reading, channel GPIO_22. -/
  value3 : Nat
  /-- State of LED_1 (green). -/
  led1 : Bool
  /-- State of LED_2 (yellow). -/
  led2 : Bool
  /-- State of LED_3 (red). -/
  led3 : Bool
  /-- State of the GPIO_0 output. -/
  gpio0 : Bool
  /-- State of the buzzer. -/
  buzzer : Bool
  /-- Messages sent over the UART, oldest first. -/
  uart : List String
deriving Repr, DecidableEq

/-- The state right after `app_main` initialization: `activar = true`,
`distancia = 0.00`, zeroed ADC values, all outputs off, nothing sent. -/
def initState : State :=
  { activar := true, distancia := 0, value1 := 0, value2 := 0, value3 := 0,
    led1 := false, led2 := false, led3 := false, gpio0 := false,
    buzzer := false, uart := [] }

/-- The alarm tier derived each `LedsTask` cycle.  `HOLD` is the
fall-through of the `if/else if` chain of `LedsTask` (taken exactly when
`activar` is true and `distancia` equals 500 or 300): no branch body
runs and every output keeps its previous value. -/
inductive Tier where
  | OFF
  | SAFE
  | CAUTION
  | DANGER
  | HOLD
deriving Repr, DecidableEq

/-- The branch of `LedsTask` (examen.c lines 104-126) selected by the
enable flag and the distance: the exact condition structure of the code
(`distancia > 500`, `(distancia < 500) & (distancia > 300)`,
`distancia < 300`, with no trailing `else`). -/
def classify (activar : Bool) (d : ℚ) : Tier :=
  if activar then
    if d > 500 then Tier.SAFE
    else if d < 500 ∧ d > 300 then Tier.CAUTION
    else if d < 300 then Tier.DANGER
    else Tier.HOLD
  else Tier.OFF

/-- One iteration of the body of `LedsTask` (examen.c lines 102-128),
without the trailing `vTaskDelay`: drives the LEDs and GPIO_0 from
`activar` and `distancia`.  The disabled branch runs `LedsOffAll()`
only — it clears the three LEDs and touches nothing else. -/
def ledsTaskStep (s : State) : State :=
  if s.activar then
    if s.distancia > 500 then
      { s with led1 := true, led2 := false, led3 := false, gpio0 := false }
    else if s.distancia < 500 ∧ s.distancia > 300 then
      { s with led1 := true, led2 := true, led3 := false, gpio0 := true }
    else if s.distancia < 300 then
      { s with led1 := true, led2 := true, led3 := true, gpio0 := true }
    else s
  else
    { s with led1 := false, led2 := false, led3 := false }

/-- The set of LED indices lit in a state. -/
def litLeds (s : State) : Finset ℕ :=
  (if s.led1 then {1} else ∅) ∪ (if s.led2 then {2} else ∅) ∪
    (if s.led3 then {3} else ∅)

/-- One iteration of `SensarTask` (examen.c lines 84-92): given the
distance the HC-SR04 driver would return this cycle, produce the next
state, whether the driver was actually invoked, and the delay (ms) the
task then sleeps for. -/
def sensarTaskIter (reading : ℚ) (s : State) : State × Bool × Nat :=
  if s.activar then
    ({ s with distancia := reading }, true, CONFIG_PERIOD_500)
  else
    (s, false, CONFIG_PERIOD_500)

/-- The buzzer on-duration selected inside `BuzzerTask` (examen.c lines
141-148) after `BuzzerOn()`: `CONFIG_PERIOD_1000` (= 10 ms) when
`(distancia > 300) & (distancia < 500)`, `CONFIG_PERIOD_500` (= 500 ms)
when `distancia < 300`, and no extra delay otherwise. -/
def buzzerOnDelay (d : ℚ) : Nat :=
  if d > 300 ∧ d < 500 then CONFIG_PERIOD_1000
  else if d < 300 then CONFIG_PERIOD_500
  else 0

/-- The three raw channel values the analog driver delivers to one
`ADC_Conversion` wake (uint16 readings of GPIO_20, GPIO_21, GPIO_22). -/
structure AdcEnv where
  ch1 : Nat
  ch2 : Nat
  ch3 : Nat
deriving Repr, DecidableEq

/-- The alert message of `ADC_Conversion`. -/
def caidaMsg : String := "Caida detectada.\r\n"

/-- One wake of `ADC_Conversion` (examen.c lines 177-187): store the
three raw readings into `value1..3` and send the fall alert over UART
iff `value1 + value2 + value3 > 1200` (the raw sum, strict). -/
def adcConversionStep (env : AdcEnv) (s : State) : State :=
  let s1 := { s with value1 := env.ch1, value2 := env.ch2, value3 := env.ch3 }
  if s1.value1 + s1.value2 + s1.value3 > 1200 then
    { s1 with uart := s1.uart ++ [caidaMsg] }
  else s1

/-- The fall-indicator sum `value1 + value2 + value3` computed by
`ADC_Conversion` from one wake's raw readings. -/
def fallSum (env : AdcEnv) : Nat := env.ch1 + env.ch2 + env.ch3

/-- The messages one `ADC_Conversion` wake appends to the UART stream. -/
def adcEmitted (env : AdcEnv) (s : State) : List String :=
  ((adcConversionStep env s).uart).drop s.uart.length

/-- Modelled from the spec: the affine normalization the specification
claims for each raw channel value, `accel = (raw / 1000.0 - offset) /
scale` with the documented calibration constants `offset = 1.65`,
`scale = 0.3` (spec section 8); this transform appears nowhere in
examen.c. -/
def specAccel (raw : Nat) : ℚ := ((raw : ℚ) / 1000 - 165 / 100) / (3 / 10)

/-- Modelled from the spec: the claimed fall indicator, the sum of the
three normalized accelerations, compared against the documented trigger
threshold 4. -/
def specFallIndicator (v1 v2 v3 : Nat) : ℚ :=
  specAccel v1 + specAccel v2 + specAccel v3

/-- Semantics of `vTaskNotifyGiveFromISR` (used by `FuncTimerSendData`,
examen.c lines 71-74) on the task's notification value: increment. -/
def notifyGive (n : Nat) : Nat := n + 1

/-- Semantics of `ulTaskNotifyTake(pdTRUE, portMAX_DELAY)` (examen.c
line 178) on the notification value: block while it is zero; otherwise
wake once, return the value and reset it to zero (`pdTRUE` clears the
whole count on exit). -/
def notifyTake (n : Nat) : Option (Nat × Nat) :=
  if n = 0 then none else some (n, 0)

/-- `N` iterated gives from a clear notification value leave the value at `N`. -/
theorem notifyGive_iterate (N : Nat) : notifyGive^[N] 0 = N := by
  induction N with
  | zero => rfl
  | succ n ih => simp [Function.iterate_succ_apply', ih, notifyGive]

/-- Claim C1, counterexample: with raw readings 500/500/500 the code
emits the fall alert (raw sum 1500 > 1200), while the spec's normalized
fall indicator is -11.5, not above the trigger threshold 4 — so the
alert does not fire iff the claimed condition holds. -/
theorem C1_counterexample :
    (adcConversionStep ⟨500, 500, 500⟩ initState).uart ≠ initState.uart ∧
    ¬ specFallIndicator 500 500 500 > 4 := by
  constructor
  · simp [adcConversionStep, initState, caidaMsg]
  · norm_num [specFallIndicator, specAccel]

/-- Claim C1, amended: `ADC_Conversion` emits the fall alert iff the raw
sum `value1 + value2 + value3` strictly exceeds 1200; no affine
normalization is applied, and a sum exactly equal to 1200 does not
fire. -/
theorem C1_amended (env : AdcEnv) (s : State) :
    ((adcConversionStep env s).uart ≠ s.uart ↔ 1200 < fallSum env) ∧
    (fallSum env = 1200 → (adcConversionStep env s).uart = s.uart) := by
  have hstep : (adcConversionStep env s).uart =
      if 1200 < env.ch1 + env.ch2 + env.ch3 then s.uart ++ [caidaMsg]
      else s.uart := by
    unfold adcConversionStep
    by_cases h : 1200 < env.ch1 + env.ch2 + env.ch3 <;> simp [h]
  rw [hstep]
  unfold fallSum
  by_cases h : 1200 < env.ch1 + env.ch2 + env.ch3
  · rw [if_pos h]
    constructor
    · constructor
      · exact fun _ => h
      · intro _ heq
        have hlen := congrArg List.length heq
        simp at hlen
    · intro he
      exact absurd h (by omega)
  · rw [if_neg h]
    simp [h]

/-- Claim C1, witness for the amended theorem at the boundary sum 1200. -/
theorem C1_amended_witness :
    (adcConversionStep ⟨400, 400, 400⟩ initState).uart = initState.uart :=
  (C1_amended ⟨400, 400, 400⟩ initState).2 rfl

/-- Claim C2, counterexample: the sentinel distance 0 (also the zeroed
initial value) takes the `distancia < 300` branch, classifying as
DANGER, not SAFE; a `LedsTask` cycle on the initial state drives the red
LED and GPIO_0 on. -/
theorem C2_counterexample :
    classify true 0 = Tier.DANGER ∧ Tier.DANGER ≠ Tier.SAFE ∧
    (ledsTaskStep initState).led3 = true ∧
    (ledsTaskStep initState).gpio0 = true := by
  decide

/-- Claim C2, amended: a DistanceSample holding the sentinel value 0
classifies as DANGER (fail alarming): all three LEDs and GPIO_0 are
driven on by the next enabled `LedsTask` cycle. -/
theorem C2_amended :
    classify initState.activar initState.distancia = Tier.DANGER ∧
    (ledsTaskStep initState).led1 = true ∧
    (ledsTaskStep initState).led2 = true ∧
    (ledsTaskStep initState).led3 = true ∧
    (ledsTaskStep initState).gpio0 = true := by
  decide

/-- Claim C3, counterexample: with the system disabled and GPIO_0
currently on, one `LedsTask` cycle clears the LEDs but leaves GPIO_0
on — the disabled branch runs `LedsOffAll()` only, so the GPIO_0
actuator output is not cleared. -/
theorem C3_counterexample :
    ({ initState with activar := false, gpio0 := true } : State).activar
        = false ∧
    (ledsTaskStep { initState with activar := false, gpio0 := true }).gpio0
        = true := by
  decide

/-- Claim C3, amended: when SystemEnable is false the tier is OFF and
the three LED indicators are cleared within one `LedsTask` cycle, but
the GPIO_0 actuator output is left unchanged, not cleared. -/
theorem C3_amended (s : State) (h : s.activar = false) :
    classify s.activar s.distancia = Tier.OFF ∧
    (ledsTaskStep s).led1 = false ∧
    (ledsTaskStep s).led2 = false ∧
    (ledsTaskStep s).led3 = false ∧
    (ledsTaskStep s).gpio0 = s.gpio0 := by
  simp [classify, ledsTaskStep, h]

/-- Claim C3, witness for the amended theorem at a concrete disabled
state. -/
theorem C3_amended_witness :
    classify ({ initState with activar := false } : State).activar
        ({ initState with activar := false } : State).distancia = Tier.OFF ∧
    (ledsTaskStep { initState with activar := false }).led1 = false ∧
    (ledsTaskStep { initState with activar := false }).led2 = false ∧
    (ledsTaskStep { initState with activar := false }).led3 = false ∧
    (ledsTaskStep { initState with activar := false }).gpio0 =
      ({ initState with activar := false } : State).gpio0 :=
  C3_amended { initState with activar := false } rfl

/-- Claim C4, counterexample: the distance 500 satisfies the claim's
CAUTION condition `300 < d ≤ 500`, yet no branch of `LedsTask` fires:
the classification is not CAUTION (it is the fall-through `HOLD`), and
the cycle leaves the state completely unchanged — the classification is
not total in the claimed sense. -/
theorem C4_counterexample :
    ((300 : ℚ) < 500 ∧ (500 : ℚ) ≤ 500) ∧
    classify true 500 ≠ Tier.CAUTION ∧
    classify true 500 = Tier.HOLD ∧
    ledsTaskStep { initState with distancia := 500 } =
      { initState with distancia := 500 } := by
  decide

/-- Claim C4, amended: with the system enabled, `d > 500` yields SAFE
(GPIO_0 off), `300 < d < 500` yields CAUTION (LED_2 and GPIO_0 on), and
`d < 300` yields DANGER (LED_3 and GPIO_0 on) — all comparisons strict;
at exactly `d = 500` or `d = 300` no branch fires and all outputs keep
their previous values; the sequence 600, 400, 200 still yields SAFE,
CAUTION, DANGER. -/
theorem C4_amended (d : ℚ) :
    (d > 500 → classify true d = Tier.SAFE ∧
      (ledsTaskStep { initState with distancia := d }).gpio0 = false) ∧
    (300 < d ∧ d < 500 → classify true d = Tier.CAUTION ∧
      (ledsTaskStep { initState with distancia := d }).led2 = true ∧
      (ledsTaskStep { initState with distancia := d }).gpio0 = true) ∧
    (d < 300 → classify true d = Tier.DANGER ∧
      (ledsTaskStep { initState with distancia := d }).led3 = true ∧
      (ledsTaskStep { initState with distancia := d }).gpio0 = true) ∧
    ((d = 500 ∨ d = 300) → classify true d = Tier.HOLD ∧
      ledsTaskStep { initState with distancia := d } =
        { initState with distancia := d }) ∧
    (classify true 600 = Tier.SAFE ∧ classify true 400 = Tier.CAUTION ∧
      classify true 200 = Tier.DANGER) := by
  refine ⟨?_, ?_, ?_, ?_, by decide⟩
  · intro h
    simp [classify, ledsTaskStep, initState, h]
  · rintro ⟨h1, h2⟩
    simp [classify, ledsTaskStep, initState, h1, h2,
      show ¬ (500 : ℚ) < d by linarith]
  · intro h
    simp [classify, ledsTaskStep, initState, h,
      show ¬ (500 : ℚ) < d by linarith, show ¬ (300 : ℚ) < d by linarith]
  · rintro (rfl | rfl) <;> exact ⟨by decide, by decide⟩

/-- Claim C4, witness for the amended theorem on the end-to-end
sequence 600, 400, 200 plus the boundary 500. -/
theorem C4_amended_witness :
    classify true 600 = Tier.SAFE ∧ classify true 400 = Tier.CAUTION ∧
    classify true 200 = Tier.DANGER ∧ classify true 500 = Tier.HOLD :=
  ⟨((C4_amended 600).1 (by norm_num)).1,
   ((C4_amended 400).2.1 ⟨by norm_num, by norm_num⟩).1,
   ((C4_amended 200).2.2.1 (by norm_num)).1,
   ((C4_amended 500).2.2.2.1 (Or.inl rfl)).1⟩

/-- Claim C5 (code bug): `BuzzerTask` delays `CONFIG_PERIOD_1000` in
the CAUTION band and `CONFIG_PERIOD_500` in the DANGER band, but the
macro named `CONFIG_PERIOD_1000` is defined as 10 while
`CONFIG_PERIOD_500` is 500 — so the DANGER on-duration (500 ms) is
strictly longer than CAUTION's (10 ms), not strictly shorter. -/
theorem C5_code_bug :
    buzzerOnDelay 400 = CONFIG_PERIOD_1000 ∧
    buzzerOnDelay 200 = CONFIG_PERIOD_500 ∧
    buzzerOnDelay 400 = 10 ∧ buzzerOnDelay 200 = 500 ∧
    ¬ buzzerOnDelay 200 < buzzerOnDelay 400 := by
  decide

/-- Claim C6: each `SensarTask` iteration invokes the HC-SR04 driver
and stores its result into `distancia` exactly when `activar` is true,
leaves the whole state unchanged when it is false, and in both cases
then sleeps for `CONFIG_PERIOD_500`. -/
theorem C6_sensar (reading : ℚ) (s : State) :
    (s.activar = true →
      sensarTaskIter reading s =
        ({ s with distancia := reading }, true, CONFIG_PERIOD_500)) ∧
    (s.activar = false →
      sensarTaskIter reading s = (s, false, CONFIG_PERIOD_500)) := by
  constructor <;> intro h <;> simp [sensarTaskIter, h]

/-- Claim C6, witness at the initial (enabled) state with reading 42. -/
theorem C6_sensar_witness :
    sensarTaskIter 42 initState =
      ({ initState with distancia := 42 }, true, CONFIG_PERIOD_500) :=
  (C6_sensar 42 initState).1 rfl

/-- One `ADC_Conversion` wake appends `[caidaMsg]` to the UART stream
when the raw sum exceeds 1200 and nothing otherwise. -/
theorem adcEmitted_eq (env : AdcEnv) (s : State) :
    adcEmitted env s =
      if 1200 < env.ch1 + env.ch2 + env.ch3 then [caidaMsg] else [] := by
  unfold adcEmitted adcConversionStep
  by_cases h : 1200 < env.ch1 + env.ch2 + env.ch3 <;>
    simp [h, List.drop_left, List.drop_length]

/-- Claim C7: an `ADC_Conversion` wake never writes `distancia` or
`activar` and never drives the LEDs, GPIO_0 or the buzzer; its only
effects are storing the three channel readings and (conditionally)
appending the alert message to the UART stream. -/
theorem C7_frame (env : AdcEnv) (s : State) :
    (adcConversionStep env s).distancia = s.distancia ∧
    (adcConversionStep env s).activar = s.activar ∧
    (adcConversionStep env s).led1 = s.led1 ∧
    (adcConversionStep env s).led2 = s.led2 ∧
    (adcConversionStep env s).led3 = s.led3 ∧
    (adcConversionStep env s).gpio0 = s.gpio0 ∧
    (adcConversionStep env s).buzzer = s.buzzer ∧
    (adcConversionStep env s).value1 = env.ch1 ∧
    (adcConversionStep env s).value2 = env.ch2 ∧
    (adcConversionStep env s).value3 = env.ch3 ∧
    (adcConversionStep env s).uart = s.uart ++ adcEmitted env s := by
  rw [adcEmitted_eq]
  unfold adcConversionStep
  by_cases h : 1200 < env.ch1 + env.ch2 + env.ch3 <;> simp [h]

/-- Claim C8: the fall-indicator sum and the emitted alert messages of
an `ADC_Conversion` wake are a pure function of the three raw channel
values — two wakes fed the same readings from any two prior states
compute the same sum and make the same alert decision. -/
theorem C8_pure (env : AdcEnv) (s t : State) :
    (adcConversionStep env s).value1 + (adcConversionStep env s).value2 +
        (adcConversionStep env s).value3 =
      (adcConversionStep env t).value1 + (adcConversionStep env t).value2 +
        (adcConversionStep env t).value3 ∧
    adcEmitted env s = adcEmitted env t := by
  constructor
  · unfold adcConversionStep
    by_cases h : 1200 < env.ch1 + env.ch2 + env.ch3 <;> simp [h]
  · rw [adcEmitted_eq, adcEmitted_eq]

/-- Claim C9: `FuncTimerSendData` signals the Sampling Task with
`vTaskNotifyGiveFromISR` (the notification value increments), and the
task waits with `ulTaskNotifyTake(pdTRUE, ...)` (clear-on-exit).  N ≥ 1
signals delivered before the task is scheduled leave the value at N;
the next take wakes once and clears the whole count to 0, a further
take blocks (so exactly one wake, not N), and a signal arriving at any
current value leaves the value nonzero, so the following take succeeds
rather than sleeping forever. -/
theorem C9_coalesce (N : Nat) (h : 1 ≤ N) :
    notifyTake (notifyGive^[N] 0) = some (N, 0) ∧
    notifyTake 0 = none ∧
    ∀ m : Nat, notifyTake (notifyGive m) = some (m + 1, 0) := by
  refine ⟨?_, rfl, fun m => ?_⟩
  · rw [notifyGive_iterate]
    unfold notifyTake
    rw [if_neg (by omega)]
  · unfold notifyGive notifyTake
    rw [if_neg (by omega)]

/-- Claim C9, witness: three rapid-fire signals produce exactly one
wake that clears the count. -/
theorem C9_coalesce_witness :
    notifyTake (notifyGive^[3] 0) = some (3, 0) :=
  (C9_coalesce 3 (by decide)).1

/-- Claim C10: on every enabled `LedsTask` cycle the lit-LED set is
monotone in tier severity — LED_1 is on in all three tiers, and the lit
sets are exactly LED_1 alone for SAFE, LED_1 and LED_2 for CAUTION, and
all three LEDs for DANGER, each contained in the next. -/
theorem C10_monotone (s : State) (h : s.activar = true) :
    (classify s.activar s.distancia = Tier.SAFE →
      litLeds (ledsTaskStep s) = {1}) ∧
    (classify s.activar s.distancia = Tier.CAUTION →
      litLeds (ledsTaskStep s) = {1, 2}) ∧
    (classify s.activar s.distancia = Tier.DANGER →
      litLeds (ledsTaskStep s) = {1, 2, 3}) ∧
    ((classify s.activar s.distancia = Tier.SAFE ∨
      classify s.activar s.distancia = Tier.CAUTION ∨
      classify s.activar s.distancia = Tier.DANGER) →
      (ledsTaskStep s).led1 = true) ∧
    ({1} : Finset ℕ) ⊆ {1, 2} ∧ ({1, 2} : Finset ℕ) ⊆ {1, 2, 3} := by
  refine ⟨?_, ?_, ?_, ?_, by decide, by decide⟩ <;>
    · unfold classify ledsTaskStep
      rw [h]
      split_ifs <;> simp [litLeds] <;> decide

/-- Claim C10, witness at the concrete distances 600, 400 and 200. -/
theorem C10_monotone_witness :
    litLeds (ledsTaskStep { initState with distancia := 600 }) = {1} ∧
    litLeds (ledsTaskStep { initState with distancia := 400 }) = {1, 2} ∧
    litLeds (ledsTaskStep { initState with distancia := 200 }) = {1, 2, 3} :=
  ⟨(C10_monotone { initState with distancia := 600 } rfl).1 (by decide),
   (C10_monotone { initState with distancia := 400 } rfl).2.1 (by decide),
   (C10_monotone { initState with distancia := 200 } rfl).2.2.1 (by decide)⟩

end Examen
